import Mathlib

/-!
Shallow embedding of `src/script.js`, a client-side enhancement script for a
static website.  The script wires up: a fetched navbar fragment, a persisted
light/dark theme toggle, a mobile menu toggle (bound twice, once inside the
main module and once by a trailing code block), a menu category filter, and a
contact-form validator.  Each event handler is modelled as a pure function on
an explicit state record; the async navbar load is modelled as a function of
the fetch result; thrown-and-caught JS errors are modelled with `Except`.
-/

namespace Script

/-- A JavaScript runtime error surfaced by the embedded code
(the only kind the script can raise is a `TypeError` from dereferencing
a `null` DOM lookup). -/
inductive JsError where
  | typeError
deriving DecidableEq, Repr

/-! ## Theme toggle (`setupNavbarFeatures`, lines 28–66)

State: the `data-theme` attribute on `document.documentElement`, the
localStorage value under key `pgc-theme`, and the theme button's text. -/

def moonIcon : String := "🌙"

def sunIcon : String := "☀️"

/-- Theme-relevant document state: `dataTheme` is the value of the
`data-theme` attribute on the document element (`none` = attribute absent),
`stored` is the localStorage entry under key `pgc-theme` (`none` = key
absent), `icon` is the theme-toggle button's text content. -/
structure ThemeState where
  dataTheme : Option String
  stored : Option String
  icon : String
deriving DecidableEq, Repr

/-- The persisted-theme initialization in `setupNavbarFeatures`
(lines 29–35): reads the saved flag; if it is `"dark"` the document
attribute is set to `"dark"` and the icon to the sun, otherwise the icon is
set to the moon and the attribute is left as it was (`attr0`). -/
def themeInit (saved : Option String) (attr0 : Option String) : ThemeState :=
  if saved = some "dark" then
    { dataTheme := some "dark", stored := saved, icon := sunIcon }
  else
    { dataTheme := attr0, stored := saved, icon := moonIcon }

/-- The theme-toggle click handler (lines 54–65): if the document attribute
is `"dark"`, remove the attribute, remove the storage key and show the moon;
otherwise set both to `"dark"` and show the sun. -/
def themeToggleClick (s : ThemeState) : ThemeState :=
  if s.dataTheme = some "dark" then
    { dataTheme := none, stored := none, icon := moonIcon }
  else
    { dataTheme := some "dark", stored := some "dark", icon := sunIcon }

/-! ## Mobile menu toggle (lines 44–50 and the trailing block, lines 212–221)

Both handlers flip the button's `aria-expanded` attribute; the inner one
toggles class `open` on `#main-nav`, the trailing one toggles class `show`
on `.nav-list`. -/

/-- Menu-toggle-relevant state: the button's `aria-expanded` attribute
(`none` = absent), presence of class `open` on `#main-nav`, and presence of
class `show` on `.nav-list`. -/
structure MenuState where
  aria : Option String
  mainNavOpen : Bool
  navListShow : Bool
deriving DecidableEq, Repr

/-- The menu-toggle click handler registered inside `setupNavbarFeatures`
(lines 45–49): reads `aria-expanded`, writes its boolean negation as a
string, and toggles class `open` on `#main-nav`. -/
def menuToggleClick (s : MenuState) : MenuState :=
  let expanded := s.aria = some "true"
  { s with
    aria := some (if expanded then "false" else "true")
    mainNavOpen := !s.mainNavOpen }

/-- The menu-toggle click handler registered by the trailing block
(lines 216–220): same `aria-expanded` flip, but toggles class `show` on
`.nav-list`. -/
def trailingMenuToggleClick (s : MenuState) : MenuState :=
  let expanded := s.aria = some "true"
  { s with
    aria := some (if expanded then "false" else "true")
    navListShow := !s.navListShow }

/-- Which of the two menu-toggle handlers were bound, plus the current
state.  The trailing block runs at script-load time, before the navbar
fragment is injected, so when both are bound the trailing handler was
registered first and fires first. -/
structure MenuPage where
  innerBound : Bool
  trailingBound : Bool
  st : MenuState
deriving DecidableEq, Repr

/-- Dispatch of one click event on the menu-toggle button: the bound
handlers run in registration order (trailing first, then the one from
`setupNavbarFeatures`). -/
def menuClickDispatch (p : MenuPage) : MenuState :=
  let s1 := if p.trailingBound then trailingMenuToggleClick p.st else p.st
  if p.innerBound then menuToggleClick s1 else s1

/-! ## Menu filter (`setupMenuFilter`, lines 135–150)

Chips carry a `data-filter` token and an `active` class bit; menu items
carry a `data-category` token and an inline `display` style.  In JS a
missing `data-*` attribute reads as `undefined`, and
`undefined === undefined` is `true`, so tokens are `Option String` and
compared with `Option` equality. -/

/-- A filter chip: its `data-filter` token (`none` = attribute absent) and
whether it carries the `active` class. -/
structure Chip where
  filter : Option String
  active : Bool
deriving DecidableEq, Repr

/-- A menu item: its `data-category` token (`none` = attribute absent) and
its inline `display` style string. -/
structure MenuItem where
  category : Option String
  display : String
deriving DecidableEq, Repr

/-- The per-item body of the chip click handler (lines 144–147): with
selected token `f`, show the item (`display := ""`) when `f` is `"all"` or
the item's category equals `f`, else hide it (`display := "none"`). -/
def applyFilter (f : Option String) (it : MenuItem) : MenuItem :=
  if f = some "all" then { it with display := "" }
  else { it with display := if it.category = f then "" else "none" }

/-- The click handler bound to chip `i` (lines 140–148): remove `active`
from every chip, add it to the clicked chip, then set every item's display
from the clicked chip's `data-filter` token.  A click can only target an
existing chip, so the out-of-range branch is inert. -/
def chipClick (chips : List Chip) (items : List MenuItem) (i : Nat) :
    List Chip × List MenuItem :=
  match chips[i]? with
  | none => (chips, items)
  | some btn =>
      ((chips.map fun c => { c with active := false }).set i
        { btn with active := true },
       items.map (applyFilter btn.filter))

/-! ## Contact form (`setupContactForm`, lines 152–177) -/

/-- The whitespace class of JavaScript regexps and `String.prototype.trim`:
tab, line terminators, form feed, vertical tab, space, and the Unicode
space separators (NBSP, ogham space, en quad … hair space, line/paragraph
separator, narrow NBSP, medium mathematical space, ideographic space, BOM). -/
def isJsWhitespace (c : Char) : Bool :=
  c.toNat = 0x9 || c.toNat = 0xa || c.toNat = 0xb || c.toNat = 0xc ||
  c.toNat = 0xd || c.toNat = 0x20 || c.toNat = 0xa0 || c.toNat = 0x1680 ||
  (0x2000 ≤ c.toNat && c.toNat ≤ 0x200a) || c.toNat = 0x2028 ||
  c.toNat = 0x2029 || c.toNat = 0x202f || c.toNat = 0x205f ||
  c.toNat = 0x3000 || c.toNat = 0xfeff

/-- JavaScript `String.prototype.trim`: strip leading and trailing
JS-whitespace characters. -/
def jsTrim (s : String) : String :=
  ⟨((s.data.dropWhile isJsWhitespace).reverse.dropWhile
      isJsWhitespace).reverse⟩

/-- Helper for the regex `\S+@\S+\.\S+`: does the list start with `'.'`
followed by a non-whitespace character (the `\.\S+` tail, matching one
non-whitespace character after the dot)? -/
def matchDotTail : List Char → Bool
  | '.' :: d :: _ => !isJsWhitespace d
  | _ => false

/-- Helper for the regex `\S+@\S+\.\S+`: does some prefix of the list match
`\S+\.\S` — one or more non-whitespace characters, a dot, one
non-whitespace character? -/
def matchAfterAt : List Char → Bool
  | [] => false
  | c :: rest =>
      !isJsWhitespace c && (matchDotTail rest || matchAfterAt rest)

/-- Scan for an (unanchored) occurrence of `\S+@\S+\.\S+`: some position
holds a non-whitespace character immediately followed by `'@'` whose tail
matches `\S+\.\S`. -/
def reTestList : List Char → Bool
  | [] => false
  | [_] => false
  | a :: b :: rest =>
      (!isJsWhitespace a && b = '@' && matchAfterAt rest) ||
      reTestList (b :: rest)

/-- `re.test(email)` for `re = /\S+@\S+\.\S+/` (line 167–168). -/
def emailRegexTest (s : String) : Bool :=
  reTestList s.data

/-- The three named input fields of `#contactForm`. -/
structure ContactForm where
  name : String
  email : String
  message : String
deriving DecidableEq, Repr

/-- The form's default (reset) field values: empty inputs. -/
def emptyForm : ContactForm := ⟨"", "", ""⟩

def fillAllFieldsMsg : String := "Please fill in all fields."

def validEmailMsg : String := "Please enter a valid email address."

def thanksMsg : String :=
  "Thanks! Your message has been received — we will reply soon."

/-- Observable outcome of one submit event: the feedback element's text,
whether `form.reset()` ran, the field values afterwards, and the pending
`setTimeout` (delay in ms and the text it will write), if one was set. -/
structure SubmitResult where
  feedback : String
  didReset : Bool
  fields : ContactForm
  timer : Option (Nat × String)
deriving DecidableEq, Repr

/-- The submit handler (lines 157–176).  `hasFeedback` records whether the
`#formFeedback` element exists: `setupContactForm` looks it up without a
guard (line 156), so every branch's write to `feedback.textContent` throws
a `TypeError` when it is absent.  Otherwise: empty trimmed field →
fill-in-all-fields message, no reset; email failing the regex → valid-email
message, no reset; else acknowledgement, `form.reset()`, and a 6000 ms
timer clearing the feedback text. -/
def contactSubmit (hasFeedback : Bool) (f : ContactForm) :
    Except JsError SubmitResult :=
  let name := jsTrim f.name
  let email := jsTrim f.email
  let message := jsTrim f.message
  if name = "" || email = "" || message = "" then
    if hasFeedback then .ok ⟨fillAllFieldsMsg, false, f, none⟩
    else .error .typeError
  else if !emailRegexTest email then
    if hasFeedback then .ok ⟨validEmailMsg, false, f, none⟩
    else .error .typeError
  else
    if hasFeedback then .ok ⟨thanksMsg, true, emptyForm, some (6000, "")⟩
    else .error .typeError

/-! ## Navbar loader and initialization (`loadNavbar`, lines 9–19;
`init`, lines 187–209) -/

/-- Outcome of the single `fetch('navbar.html')` call: a network error
(rejected promise) or a response with its `ok` flag and body text. -/
inductive FetchResult where
  | networkError
  | response (ok : Bool) (body : String)
deriving DecidableEq, Repr

/-- A fetch "fails" in the spec's sense when the promise rejects or the
response is non-2xx (`!res.ok`). -/
def FetchResult.failed : FetchResult → Bool
  | .networkError => true
  | .response ok _ => !ok

/-- Observable effects of one `loadNavbar()` run: the navbar container
afterwards (`none` = element absent, `some c` = present with innerHTML
`c`), whether its innerHTML was assigned, whether `setupNavbarFeatures`
ran, whether the catch block logged an error, how many fetches were issued,
and how the returned promise settled. -/
structure LoadResult where
  container : Option String
  wroteInner : Bool
  setupCalled : Bool
  loggedError : Bool
  fetchCalls : Nat
  resolution : Except JsError Unit
deriving Repr

/-- `loadNavbar` (lines 9–19) as a function of the fetch outcome and the
initial container.  Every failure — rejected fetch, non-ok response, or a
missing `#navbar-container` (the `null.innerHTML` write throws) — lands in
the catch block, which logs and swallows the error, so the async function's
promise always resolves.  Exactly one fetch is issued; no retry. -/
def loadNavbar (r : FetchResult) (container : Option String) : LoadResult :=
  match r with
  | .networkError =>
      ⟨container, false, false, true, 1, .ok ()⟩
  | .response ok body =>
      if !ok then ⟨container, false, false, true, 1, .ok ()⟩
      else
        match container with
        | none => ⟨none, false, false, true, 1, .ok ()⟩
        | some _ => ⟨some body, true, true, false, 1, .ok ()⟩

/-- The five feature initializers that `init` schedules (lines 190–194 and
200–204). -/
inductive FeatureInit where
  | fadeOnScroll
  | lightbox
  | menuFilter
  | contactForm
  | lazyImages
deriving DecidableEq, Repr

/-- The initializer list run by each of `init`'s two paths, in source
order. -/
def featureInits : List FeatureInit :=
  [.fadeOnScroll, .lightbox, .menuFilter, .contactForm, .lazyImages]

/-- The fixed delay (ms) of the `DOMContentLoaded` fallback path
(line 199–205). -/
def fallbackDelayMs : Nat := 90

/-- The initializers run by the `.then` continuation of
`loadNavbar()` (lines 188–195): they run exactly when the promise
resolves, and are skipped if it rejects. -/
def thenPathInits (r : FetchResult) (container : Option String) :
    List FeatureInit :=
  match (loadNavbar r container).resolution with
  | .ok _ => featureInits
  | .error _ => []

/-- The initializers run by the `DOMContentLoaded` fallback after the fixed
delay (lines 198–206): unconditional. -/
def fallbackPathInits : List FeatureInit := featureInits

/-- All feature-initializer runs that `init` produces for a given fetch
outcome: the `.then` path and the fallback path. -/
def initAllInits (r : FetchResult) (container : Option String) :
    List FeatureInit :=
  thenPathInits r container ++ fallbackPathInits

/-! ## Helper lemmas -/

/-- Applying the same filter token twice to an item gives the same item as
applying it once: the handler overwrites `display` and never changes
`category`. -/
theorem applyFilter_idem (f : Option String) (it : MenuItem) :
    applyFilter f (applyFilter f it) = applyFilter f it := by
  by_cases h : f = some "all" <;> simp [applyFilter, h]

/-- `applyFilter` never changes an item's `category`. -/
theorem applyFilter_category (f : Option String) (it : MenuItem) :
    (applyFilter f it).category = it.category := by
  by_cases h : f = some "all" <;> simp [applyFilter, h]

/-- The promise returned by `loadNavbar` settles as `ok` on every input:
every failure path lands in the catch block. -/
theorem loadNavbar_resolution (r : FetchResult) (c : Option String) :
    (loadNavbar r c).resolution = .ok () := by
  cases r with
  | networkError => rfl
  | response ok body => cases ok <;> cases c <;> rfl

/-! ## Claims -/

/-- C1 counterexample: a state with the attribute absent but a stored flag
`"light"` (reachable: `themeInit` leaves a foreign stored value in place)
is not restored by two clicks — the second click removes the stored flag,
which the initial state had. -/
theorem c1_counterexample :
    (themeInit (some "light") none).dataTheme = none ∧
    themeToggleClick (themeToggleClick (themeInit (some "light") none)) ≠
      themeInit (some "light") none := by
  decide

/-- C1 (amended): from any state with the `data-theme` attribute absent,
one click on the theme toggle sets the stored `pgc-theme` flag to `"dark"`
and the document attribute to `"dark"`; a second click removes both the
attribute and the flag; and when the stored flag was initially absent and
the icon showed the moon — as after initialization in a light theme — the
second click restores the initial state exactly. -/
theorem c1_theme_toggle_round_trip (s : ThemeState)
    (h : s.dataTheme = none) :
    (themeToggleClick s).stored = some "dark" ∧
    (themeToggleClick s).dataTheme = some "dark" ∧
    (themeToggleClick (themeToggleClick s)).dataTheme = none ∧
    (themeToggleClick (themeToggleClick s)).stored = none ∧
    (s.stored = none → s.icon = moonIcon →
      themeToggleClick (themeToggleClick s) = s) := by
  obtain ⟨d, st, ic⟩ := s
  simp only at h
  subst h
  refine ⟨by simp [themeToggleClick], by simp [themeToggleClick],
    by simp [themeToggleClick], by simp [themeToggleClick], ?_⟩
  intro hst hic
  simp only at hst hic
  subst hst
  subst hic
  simp [themeToggleClick]

/-- C1 witness: the round trip at the initialized light state. -/
theorem c1_theme_toggle_round_trip_witness :
    (themeToggleClick ⟨none, none, moonIcon⟩).stored = some "dark" ∧
    (themeToggleClick ⟨none, none, moonIcon⟩).dataTheme = some "dark" ∧
    themeToggleClick (themeToggleClick ⟨none, none, moonIcon⟩) =
      ⟨none, none, moonIcon⟩ := by
  have h := c1_theme_toggle_round_trip ⟨none, none, moonIcon⟩ rfl
  exact ⟨h.1, h.2.1, h.2.2.2.2 rfl rfl⟩

/-- C2: on every failed fetch (network error or non-ok response),
`loadNavbar` leaves the container untouched, writes no innerHTML, does not
call `setupNavbarFeatures`, logs the error, issues exactly one fetch (no
retry); and the `DOMContentLoaded` fallback still runs all five feature
initializers after the fixed 90 ms delay. -/
theorem c2_navbar_failure (r : FetchResult) (c : Option String)
    (h : r.failed = true) :
    (loadNavbar r c).container = c ∧
    (loadNavbar r c).wroteInner = false ∧
    (loadNavbar r c).setupCalled = false ∧
    (loadNavbar r c).loggedError = true ∧
    (loadNavbar r c).fetchCalls = 1 ∧
    fallbackPathInits = featureInits ∧
    fallbackDelayMs = 90 := by
  cases r with
  | networkError => exact ⟨rfl, rfl, rfl, rfl, rfl, rfl, rfl⟩
  | response ok body =>
      cases ok with
      | false => exact ⟨rfl, rfl, rfl, rfl, rfl, rfl, rfl⟩
      | true => simp [FetchResult.failed] at h

/-- C2 witness: a network error with a present container. -/
theorem c2_navbar_failure_witness :
    FetchResult.networkError.failed = true ∧
    (loadNavbar .networkError (some "old")).container = some "old" ∧
    (loadNavbar .networkError (some "old")).loggedError = true ∧
    fallbackPathInits = featureInits := by
  have h := c2_navbar_failure .networkError (some "old") rfl
  exact ⟨rfl, h.1, h.2.2.2.1, h.2.2.2.2.2.1⟩

/-- C3: whenever at least one trimmed field is empty, the submit handler
shows the fill-in-all-fields message, does not reset the form (field values
unchanged), and sets no timer — no further validation or acknowledgement
happens. -/
theorem c3_empty_field (f : ContactForm)
    (h : jsTrim f.name = "" ∨ jsTrim f.email = "" ∨ jsTrim f.message = "") :
    contactSubmit true f = .ok ⟨fillAllFieldsMsg, false, f, none⟩ := by
  rcases h with h | h | h <;> simp [contactSubmit, h]

/-- C3 witness: an empty name field. -/
theorem c3_empty_field_witness :
    jsTrim "" = "" ∧
    contactSubmit true ⟨"", "a@b.c", "hi"⟩ =
      .ok ⟨fillAllFieldsMsg, false, ⟨"", "a@b.c", "hi"⟩, none⟩ :=
  ⟨rfl, c3_empty_field ⟨"", "a@b.c", "hi"⟩ (Or.inl rfl)⟩

/-- C4: with all trimmed fields non-empty but the trimmed email failing the
regex `\S+@\S+\.\S+`, the handler shows the valid-email message and does
not reset; moreover, for every form whose trims contain an empty field the
result is never the valid-email message — the empty-field rule is checked
first. -/
theorem c4_invalid_email (f : ContactForm)
    (h1 : jsTrim f.name ≠ "") (h2 : jsTrim f.email ≠ "")
    (h3 : jsTrim f.message ≠ "")
    (h4 : emailRegexTest (jsTrim f.email) = false) :
    contactSubmit true f = .ok ⟨validEmailMsg, false, f, none⟩ ∧
    (∀ g : ContactForm, ∀ res : SubmitResult,
      (jsTrim g.name = "" ∨ jsTrim g.email = "" ∨ jsTrim g.message = "") →
      contactSubmit true g = .ok res → res.feedback ≠ validEmailMsg) := by
  constructor
  · simp [contactSubmit, h1, h2, h3, h4]
  · intro g res hg hres
    rw [c3_empty_field g hg] at hres
    cases hres
    show fillAllFieldsMsg ≠ validEmailMsg
    decide

/-- C4 witness: `⟨"Jane", "not-an-email", "Hello"⟩`. -/
theorem c4_invalid_email_witness :
    jsTrim "not-an-email" ≠ "" ∧
    emailRegexTest (jsTrim "not-an-email") = false ∧
    contactSubmit true ⟨"Jane", "not-an-email", "Hello"⟩ =
      .ok ⟨validEmailMsg, false, ⟨"Jane", "not-an-email", "Hello"⟩, none⟩ :=
  ⟨by decide, by decide,
    (c4_invalid_email ⟨"Jane", "not-an-email", "Hello"⟩ (by decide)
      (by decide) (by decide) (by decide)).1⟩

/-- C5: with all trimmed fields non-empty and the trimmed email matching
the regex, the handler shows the acknowledgement, resets the fields to the
empty defaults, and schedules the 6000 ms timer that sets the feedback text
to the empty string. -/
theorem c5_valid_submit (f : ContactForm)
    (h1 : jsTrim f.name ≠ "") (h2 : jsTrim f.email ≠ "")
    (h3 : jsTrim f.message ≠ "")
    (h4 : emailRegexTest (jsTrim f.email) = true) :
    contactSubmit true f = .ok ⟨thanksMsg, true, emptyForm, some (6000, "")⟩ := by
  simp [contactSubmit, h1, h2, h3, h4]

/-- C5 witness: `⟨"Jane", "jane@example.com", "Hello"⟩`. -/
theorem c5_valid_submit_witness :
    emailRegexTest (jsTrim "jane@example.com") = true ∧
    contactSubmit true ⟨"Jane", "jane@example.com", "Hello"⟩ =
      .ok ⟨thanksMsg, true, emptyForm, some (6000, "")⟩ :=
  ⟨by decide,
    c5_valid_submit ⟨"Jane", "jane@example.com", "Hello"⟩ (by decide)
      (by decide) (by decide) (by decide)⟩

/-- C6: a click on chip `i` (chip and item sets non-empty) leaves `active`
exactly on the clicked chip, and sets every item's display from the chip's
token: token `"all"` shows every item; any other token shows exactly the
items whose category equals it and hides the rest with `display = "none"`. -/
theorem c6_chip_click (chips : List Chip) (items : List MenuItem) (i : Nat)
    (h : i < chips.length) (_hitems : items ≠ []) (btn : Chip)
    (hbtn : chips[i]? = some btn) :
    (∀ j, (chipClick chips items i).1[j]? =
      (chips[j]?).map fun c : Chip => { c with active := j == i }) ∧
    (chipClick chips items i).2 = items.map (applyFilter btn.filter) ∧
    (btn.filter = some "all" →
      ∀ it ∈ (chipClick chips items i).2, it.display = "") ∧
    (btn.filter ≠ some "all" →
      (chipClick chips items i).2 =
        items.map fun it =>
          { it with
            display := if it.category = btn.filter then "" else "none" }) := by
  refine ⟨?_, ?_, ?_, ?_⟩
  · intro j
    simp only [chipClick, hbtn]
    by_cases hj : j = i
    · subst hj
      rw [List.getElem?_set_self (by simpa using h), hbtn]
      simp
    · rw [List.getElem?_set_ne (fun hij => hj hij.symm), List.getElem?_map]
      cases chips[j]? with
      | none => rfl
      | some c => simp [Nat.beq_eq_true_eq, hj]
  · simp [chipClick, hbtn]
  · intro hall it hit
    simp only [chipClick, hbtn] at hit
    obtain ⟨a, _, rfl⟩ := List.mem_map.1 hit
    simp [applyFilter, hall]
  · intro hne
    simp [chipClick, hbtn, applyFilter, hne]

/-- C6 witness: clicking the `"drinks"` chip in a two-chip, two-item
menu. -/
theorem c6_chip_click_witness :
    (chipClick [⟨some "all", true⟩, ⟨some "drinks", false⟩]
        [⟨some "drinks", ""⟩, ⟨some "food", ""⟩] 1).2 =
      [⟨some "drinks", ""⟩, ⟨some "food", "none"⟩] ∧
    (chipClick [⟨some "all", true⟩, ⟨some "drinks", false⟩]
        [⟨some "drinks", ""⟩, ⟨some "food", ""⟩] 1).1[1]? =
      some ⟨some "drinks", true⟩ := by
  have h := c6_chip_click [⟨some "all", true⟩, ⟨some "drinks", false⟩]
      [⟨some "drinks", ""⟩, ⟨some "food", ""⟩] 1 (by decide) (by decide)
      ⟨some "drinks", false⟩ rfl
  refine ⟨?_, ?_⟩
  · rw [h.2.2.2 (by decide)]
    rfl
  · rw [h.1 1]
    rfl

/-- C7 counterexample: with both menu-toggle handlers bound (the trailing
block's and the main module's), one click on a button with no
`aria-expanded` attribute ends with the attribute `"false"` — flipped
twice, not inverted exactly once to `"true"` — and toggles `show` as well
as `open`. -/
theorem c7_counterexample :
    (menuClickDispatch ⟨true, true, ⟨none, false, false⟩⟩).aria ≠
      some "true" ∧
    menuClickDispatch ⟨true, true, ⟨none, false, false⟩⟩ =
      ⟨some "false", true, true⟩ := by
  decide

/-- C7 (amended): when only the main module's handler is bound, one click
inverts `aria-expanded` exactly once (`"true"` ↦ `"false"`, anything else ↦
`"true"`) and toggles the `open` class exactly once, leaving `show`
untouched; with the trailing handler also bound this fails. -/
theorem c7_menu_toggle_single (p : MenuPage) (hi : p.innerBound = true)
    (ht : p.trailingBound = false) :
    (menuClickDispatch p).aria =
      some (if p.st.aria = some "true" then "false" else "true") ∧
    (menuClickDispatch p).mainNavOpen = !p.st.mainNavOpen ∧
    (menuClickDispatch p).navListShow = p.st.navListShow := by
  simp [menuClickDispatch, hi, ht, menuToggleClick]

/-- C7 witness: a single-bound click on an expanded menu. -/
theorem c7_menu_toggle_single_witness :
    (menuClickDispatch ⟨true, false, ⟨some "true", true, false⟩⟩).aria =
      some "false" ∧
    (menuClickDispatch ⟨true, false, ⟨some "true", true, false⟩⟩).mainNavOpen
      = false := by
  have h := c7_menu_toggle_single ⟨true, false, ⟨some "true", true, false⟩⟩
      rfl rfl
  exact ⟨h.1, h.2.1⟩

/-- C8 counterexample: the theme-toggle click handler is not idempotent —
starting from the initialized light state, two clicks end light while one
click ends dark. -/
theorem c8_counterexample :
    themeToggleClick (themeToggleClick ⟨none, none, moonIcon⟩) ≠
      themeToggleClick ⟨none, none, moonIcon⟩ := by
  decide

/-- C8 (amended): the chip click handlers are idempotent (clicking the same
chip twice yields the state of one click), but the theme-toggle and
menu-toggle click handlers are not — each inverts its toggled state, so on
every state running one of them twice differs from running it once. -/
theorem c8_handler_idempotence (chips : List Chip) (items : List MenuItem)
    (i : Nat) (h : i < chips.length) :
    chipClick (chipClick chips items i).1 (chipClick chips items i).2 i =
      chipClick chips items i ∧
    (∀ s : ThemeState,
      themeToggleClick (themeToggleClick s) ≠ themeToggleClick s) ∧
    (∀ s : MenuState,
      menuToggleClick (menuToggleClick s) ≠ menuToggleClick s) := by
  refine ⟨?_, ?_, ?_⟩
  · have hbtn : chips[i]? = some chips[i] := List.getElem?_eq_getElem h
    have hlen : i <
        (chips.map fun c : Chip => { c with active := false }).length := by
      simpa using h
    have hbtn2 : ((chips.map fun c : Chip => { c with active := false }).set
        i { chips[i] with active := true })[i]? =
        some { chips[i] with active := true } :=
      List.getElem?_set_self hlen
    simp only [chipClick, hbtn, hbtn2, Prod.mk.injEq]
    constructor
    · rw [List.map_set, List.map_map, List.set_set]
      rfl
    · rw [List.map_map]
      exact List.map_congr_left fun it _ => applyFilter_idem _ it
  · intro s heq
    have hth : (themeToggleClick (themeToggleClick s)).dataTheme =
        (themeToggleClick s).dataTheme := congrArg ThemeState.dataTheme heq
    by_cases hd : s.dataTheme = some "dark" <;>
      simp [themeToggleClick, hd] at hth
  · intro s heq
    have hm : (menuToggleClick (menuToggleClick s)).mainNavOpen =
        (menuToggleClick s).mainNavOpen := congrArg MenuState.mainNavOpen heq
    simp [menuToggleClick] at hm

/-- C8 witness: idempotence of a concrete chip click, non-idempotence of
concrete theme-toggle and menu-toggle clicks. -/
theorem c8_handler_idempotence_witness :
    chipClick (chipClick [⟨some "drinks", false⟩] [⟨some "food", ""⟩] 0).1
        (chipClick [⟨some "drinks", false⟩] [⟨some "food", ""⟩] 0).2 0 =
      chipClick [⟨some "drinks", false⟩] [⟨some "food", ""⟩] 0 ∧
    themeToggleClick (themeToggleClick ⟨some "dark", some "dark", sunIcon⟩)
      ≠ themeToggleClick ⟨some "dark", some "dark", sunIcon⟩ ∧
    menuToggleClick (menuToggleClick ⟨some "true", true, false⟩) ≠
      menuToggleClick ⟨some "true", true, false⟩ := by
  have h := c8_handler_idempotence [⟨some "drinks", false⟩]
      [⟨some "food", ""⟩] 0 (by decide)
  exact ⟨h.1, h.2.1 ⟨some "dark", some "dark", sunIcon⟩,
    h.2.2 ⟨some "true", true, false⟩⟩

/-- C9: when `#contactForm` exists but `#formFeedback` does not, every
submit event throws a `TypeError` (the handler writes
`feedback.textContent` on all three branches with no null guard), whereas
with the feedback element present every submit completes normally. -/
theorem c9_missing_feedback (f : ContactForm) :
    contactSubmit false f = .error .typeError ∧
    ∃ res : SubmitResult, contactSubmit true f = .ok res := by
  constructor
  · simp only [contactSubmit]
    split
    · rfl
    · split <;> rfl
  · simp only [contactSubmit]
    split
    · exact ⟨_, rfl⟩
    · split <;> exact ⟨_, rfl⟩

/-- C10: the promise returned by `loadNavbar` always resolves, so the
`.then` continuation runs the five feature initializers on success and
failure alike; together with the unconditional `DOMContentLoaded` fallback,
every feature initializer runs exactly twice. -/
theorem c10_always_resolves_double_init (r : FetchResult)
    (c : Option String) :
    (loadNavbar r c).resolution = .ok () ∧
    thenPathInits r c = featureInits ∧
    ∀ fi : FeatureInit, (initAllInits r c).count fi = 2 := by
  have hres := loadNavbar_resolution r c
  refine ⟨hres, ?_, ?_⟩
  · simp [thenPathInits, hres]
  · intro fi
    have hinit : initAllInits r c = featureInits ++ featureInits := by
      simp [initAllInits, thenPathInits, hres, fallbackPathInits]
    rw [hinit]
    cases fi <;> rfl

end Script
